import Mathlib

/-!
Shallow embedding of the `rag_project` repository (three Python scripts:
`common_rag.py`, `lightrag-demo.py`, `lightrag.py`) together with proofs
about the orchestration pipeline they implement: build-vs-load of the
vector store, corpus loading with per-file handling, query execution with
streaming, and the interactive session loop.

Conventions of the embedding:
* file-system reads are modelled by an `Entry` record carrying the outcome
  of `open(...).read()` for that directory entry;
* a directory that does not exist is `Option.none` (so `os.listdir` on it
  is a raised `FileNotFoundError`);
* stdout writes (`print`) are collected into `List String` traces;
* exceptions are modelled by `Option`/`Except` error values;
* external-collaborator calls (`chromadb`, `llama_index`, `LightRAG`) are
  modelled by oracles describing their observable answers, with call
  accounting threaded explicitly where a claim is about call counts.
-/

namespace RagProject

/-! ### Python string primitives -/

/-- The characters that Python `str.strip()` removes (ASCII whitespace). -/
def isPySpace (c : Char) : Bool :=
  c == ' ' || c == '\t' || c == '\n' || c == '\r' || c == (Char.ofNat 11) || c == (Char.ofNat 12)

/-- Python `s.strip()`. -/
def pyStrip (s : String) : String :=
  String.mk (((s.data.dropWhile isPySpace).reverse.dropWhile isPySpace).reverse)

/-- Python truthiness test `not s.strip()`: `true` iff `s` is empty or whitespace-only. -/
def stripEmpty (s : String) : Bool :=
  pyStrip s == ""

/-- Python `s.lower()`, restricted to the basic latin letters (the only case
mapping relevant to the file extensions involved). -/
def lowerStr (s : String) : String :=
  String.mk (s.data.map Char.toLower)

/-- Index of the last `'.'` in a character list, if any
(the `p.rfind('.')` step of `os.path.splitext`). -/
def lastDotPos : List Char → Option Nat
  | [] => none
  | c :: cs =>
    match lastDotPos cs with
    | some i => some (i + 1)
    | none => if c = '.' then some 0 else none

/-- The extension component of `os.path.splitext(p)` for a bare filename
(no path separator, which is what `os.listdir` yields): the suffix from the
last dot on, provided some character strictly before that dot is not itself
a dot; otherwise the empty string. -/
def splitextExt (p : String) : String :=
  match lastDotPos p.data with
  | none => ""
  | some i =>
    if (p.data.take i).any (fun c => c != '.') then String.mk (p.data.drop i) else ""

end RagProject

namespace RagProject.Demo

/-- `SUPPORTED_FILE_EXTENSIONS` from `lightrag-demo.py` (a Python set;
order is irrelevant, membership is what is used). -/
def SUPPORTED_FILE_EXTENSIONS : List String :=
  [".txt", ".md", ".doc", ".docx", ".pdf"]

/-- `is_supported_file` from `lightrag-demo.py`:
`_, ext = os.path.splitext(filename.lower()); return ext in SUPPORTED_FILE_EXTENSIONS`. -/
def is_supported_file (filename : String) : Bool :=
  SUPPORTED_FILE_EXTENSIONS.contains (splitextExt (lowerStr filename))

end RagProject.Demo

namespace RagProject

/-! ### Shared corpus-directory model -/

/-- Outcome of `open(file_path, "r", encoding="utf-8").read()` for one
directory entry. -/
inductive ReadResult where
  | ok (content : String)
  | decodeError
  | readError
  deriving DecidableEq

/-- One entry of `os.listdir(folder_path)`: its name, whether
`os.path.isfile` holds for it, and what reading it yields. -/
structure Entry where
  name : String
  isFile : Bool
  read : ReadResult
  deriving DecidableEq

end RagProject

namespace RagProject.CommonRag

/-! ### Embedding of `common_rag.py` -/

/-- How the `VectorStoreIndex` handed back by
`initialize_or_load_vector_store` was constructed. -/
inductive Index where
  | fromDocuments (documents : List String)
  | fromVectorStore
  deriving DecidableEq

/-- Call accounting for the external collaborators used by
`initialize_or_load_vector_store`. -/
structure Trace where
  countCalls : Nat
  loadDataCalls : Nat
  fromDocumentsCalls : Nat
  deriving DecidableEq

def Trace.start : Trace := ⟨0, 0, 0⟩

/-- `collection.count()` on a Chroma collection holding `storeCount`
records. -/
def collectionCount (storeCount : Nat) (t : Trace) : Nat × Trace :=
  (storeCount, { t with countCalls := t.countCalls + 1 })

/-- `SimpleDirectoryReader(DOCS_DIR).load_data()`: the external reader,
returning the documents found under the corpus directory. -/
def loadData (docsDir : List String) (t : Trace) : List String × Trace :=
  (docsDir, { t with loadDataCalls := t.loadDataCalls + 1 })

/-- `VectorStoreIndex.from_documents(...)` — the bulk ingestion call. -/
def fromDocuments (documents : List String) (t : Trace) : Index × Trace :=
  (Index.fromDocuments documents, { t with fromDocumentsCalls := t.fromDocumentsCalls + 1 })

/-- `VectorStoreIndex.from_vector_store(...)` — binds to the existing
store without ingesting anything. -/
def fromVectorStore (t : Trace) : Index × Trace :=
  (Index.fromVectorStore, t)

/-- `initialize_or_load_vector_store()` from `common_rag.py`. `storeCount`
is the record count of the persisted collection, `docsDir` what the corpus
directory holds. -/
def initialize_or_load_vector_store (storeCount : Nat) (docsDir : List String) (t : Trace) :
    Index × Trace :=
  let r1 := collectionCount storeCount t
  if r1.1 = 0 then
    let r2 := loadData docsDir r1.2
    fromDocuments r2.1 r2.2
  else
    fromVectorStore r1.2

/-- The keyword arguments `index.as_query_engine` is called with. -/
structure QueryEngineConfig where
  similarity_top_k : Nat
  retriever_mode : String
  streaming : Bool
  response_mode : String
  deriving DecidableEq

/-- `create_query_engine` from `common_rag.py`. -/
def create_query_engine (index : Index) (similarity_top_k : Nat) (retriever_mode : String) :
    Index × QueryEngineConfig :=
  (index, { similarity_top_k := similarity_top_k, retriever_mode := retriever_mode,
            streaming := true, response_mode := "compact" })

/-- The accumulation loop of `stream_response`: `full_response = ""`, then
`full_response += token` for each token. -/
def streamLoop (full_response : String) : List String → String
  | [] => full_response
  | token :: rest => streamLoop (full_response ++ token) rest

/-- `stream_response` from `common_rag.py`. First component: the strings
written to stdout — `print("Bot: ", end="")` before the loop and the bare
`print()` after it; the per-token print inside the loop is commented out
in the source (line 89). Second component: the returned `full_response`. -/
def stream_response (response_gen : List String) : List String × String :=
  (["Bot: ", "\n"], streamLoop "" response_gen)

/-- Observable behaviour of `query_engine.query(prompt)`: a streaming
response (the chunks its generator yields, and an exception it raises
mid-iteration, if any), a response with a `.response` attribute, any other
object, or an exception raised by `query` itself. -/
inductive EngineResp where
  | streamResp (chunks : List String) (err : Option String)
  | plainResp (text : String)
  | otherResp (text : String)
  | queryRaises (err : String)
  deriving DecidableEq

/-- The error string built in the `except` branch of `query_rag`. -/
def errorMsg (e : String) : String := "Error processing your request: " ++ e

/-- `query_rag` from `common_rag.py`: the string the function returns. A
generator raising mid-iteration makes `stream_response` raise inside the
`try`, landing in the `except` branch, which prints and returns the error
message. -/
def query_rag (prompt : String) (query_engine : String → EngineResp) : String :=
  match query_engine prompt with
  | .streamResp chunks none => (stream_response chunks).2
  | .streamResp _ (some e) => errorMsg e
  | .plainResp text => text
  | .otherResp text => text
  | .queryRaises e => errorMsg e

/-- `query.lower() in ["exit", "quit"]`. -/
def isExitCmd (q : String) : Bool :=
  lowerStr q == "exit" || lowerStr q == "quit"

/-- The interactive loop of the `__main__` block of `common_rag.py`: one
stdout line `print("Bot:", query_rag(query, query_engine))` per non-exit
input, stopping at the first exit command. -/
def session_loop (query_engine : String → EngineResp) : List String → List String
  | [] => []
  | q :: rest =>
    if isExitCmd q then []
    else ("Bot: " ++ query_rag q query_engine) :: session_loop query_engine rest

/-- A query engine used to instantiate the session-loop theorem: it raises
on the query `"boom"` and answers `"hi"` otherwise. -/
def engBoom : String → EngineResp :=
  fun q => if q = "boom" then EngineResp.queryRaises "fail" else EngineResp.plainResp "hi"

end RagProject.CommonRag

namespace RagProject.Demo

/-! ### Embedding of `lightrag-demo.py` -/

/-- The running state of `load_docs_from_folder` in `lightrag-demo.py`:
its two counters and the contents passed to `rag.insert`, in order. -/
structure LoadResult where
  loaded_count : Nat
  failed_count : Nat
  inserted : List String
  deriving DecidableEq

def LoadResult.start : LoadResult := ⟨0, 0, []⟩

/-- One iteration of the `for filename in os.listdir(folder_path)` loop of
`load_docs_from_folder` in `lightrag-demo.py`. -/
def step (r : LoadResult) (e : Entry) : LoadResult :=
  if !e.isFile || !is_supported_file e.name then r
  else
    match e.read with
    | .ok content =>
      if stripEmpty content then r
      else { r with loaded_count := r.loaded_count + 1, inserted := r.inserted ++ [content] }
    | .decodeError => { r with failed_count := r.failed_count + 1 }
    | .readError => { r with failed_count := r.failed_count + 1 }

/-- `load_docs_from_folder` from `lightrag-demo.py`. `none` models a folder
for which `os.path.exists` is false: the function logs a warning and
returns 0 without touching the file system further. -/
def load_docs_from_folder (folder : Option (List Entry)) : LoadResult :=
  match folder with
  | none => LoadResult.start
  | some entries => entries.foldl step LoadResult.start

/-- `failed_count += 1`. -/
def bumpFailed (r : LoadResult) : LoadResult :=
  { r with failed_count := r.failed_count + 1 }

/-- A streaming result: the chunks the async generator yields and, if
`err = some e`, the exception it raises after yielding them. -/
structure StreamResp where
  chunks : List String
  err : Option String
  deriving DecidableEq

/-- Observable behaviour of `rag.query`: an async generator
(`inspect.isasyncgen` is true), a plain text response, or an exception
raised by the call itself. -/
inductive QueryResp where
  | agen (s : StreamResp)
  | completeText (text : String)
  | raisesQ (err : String)
  deriving DecidableEq

/-- Outcome of the non-streaming `rag.query` call: its text, or the
exception it raises. -/
inductive PlainResp where
  | ok (text : String)
  | raisesP (err : String)
  deriving DecidableEq

/-- Behaviour of one LightRAG instance on a fixed query: its response when
called with `QueryParam(mode="global", stream=True)` and when called with
`QueryParam(mode="global")`. -/
structure Rag where
  onStream : QueryResp
  onPlain : PlainResp
  deriving DecidableEq

/-- `print_stream` from `lightrag-demo.py`: the stdout writes it performs.
An exception raised by the stream is caught inside this function and only
logged, so the caller never sees it; the chunks already printed stand, and
the final newline is skipped. -/
def print_stream (s : StreamResp) : List String :=
  match s.err with
  | none => s.chunks ++ ["\n"]
  | some _ => s.chunks

/-- What one call of `query_rag_async` does: its stdout writes and how
many times it issued the non-streaming `rag.query` fallback. -/
structure QueryTrace where
  printed : List String
  fallbackCalls : Nat
  deriving DecidableEq

/-- `query_rag_async` from `lightrag-demo.py`. -/
def query_rag_async (rag : Rag) : QueryTrace :=
  match rag.onStream with
  | .agen s => { printed := print_stream s, fallbackCalls := 0 }
  | .completeText t => { printed := [t ++ "\n"], fallbackCalls := 0 }
  | .raisesQ _ =>
    match rag.onPlain with
    | .ok t => { printed := [t ++ "\n"], fallbackCalls := 1 }
    | .raisesP _ => { printed := ["抱歉，查询失败。请检查您的查询或系统状态。\n"], fallbackCalls := 1 }

/-- A rag whose streaming query yields `"Partial"` and then raises, while
its non-streaming query would succeed with a complete answer. -/
def ragMidFail : Rag :=
  { onStream := QueryResp.agen { chunks := ["Partial"], err := some "transport failure" },
    onPlain := PlainResp.ok "The complete answer." }

/-- A rag for which issuing the streaming query itself raises, while the
non-streaming query succeeds. -/
def ragQueryRaises : Rag :=
  { onStream := QueryResp.raisesQ "boom", onPlain := PlainResp.ok "Fallback answer." }

/-- One event of the interactive loop of `main()` in `lightrag-demo.py`. -/
inductive SessionEvent where
  | answered (printed : List String)
  | helped
  | cleared
  | statusShown (doc_count : Nat)
  deriving DecidableEq

/-- The interactive loop of `main()` in `lightrag-demo.py`, over the
stripped inputs: empty inputs are skipped, exit commands stop the loop,
`help`/`clear`/`status` are dispatched, anything else is queried. -/
def session (rag : Rag) (doc_count : Nat) : List String → List SessionEvent
  | [] => []
  | q :: rest =>
    let qq := pyStrip q
    if qq == "" then session rag doc_count rest
    else if lowerStr qq == "exit" || lowerStr qq == "quit" || lowerStr qq == "退出" then []
    else if lowerStr qq == "help" || lowerStr qq == "帮助" then
      SessionEvent.helped :: session rag doc_count rest
    else if lowerStr qq == "clear" then SessionEvent.cleared :: session rag doc_count rest
    else if lowerStr qq == "status" then
      SessionEvent.statusShown doc_count :: session rag doc_count rest
    else SessionEvent.answered (query_rag_async rag).printed :: session rag doc_count rest

/-- `main()` from `lightrag-demo.py`: it returns early (`none`) only when
`initialize_rag` produced `None`; otherwise ingestion runs and the loop is
reached whatever `doc_count` ingestion produced — a count of zero only
logs a warning. -/
def main (ragInitOk : Bool) (rag : Rag) (folder : Option (List Entry)) (queries : List String) :
    Option (List SessionEvent) :=
  if ragInitOk then
    some (session rag (load_docs_from_folder folder).loaded_count queries)
  else none

/-- The number of `rag.insert` calls performed by a start of `main()` in
`lightrag-demo.py`: `load_docs_from_folder(DOCS_DIR, rag)` runs
unconditionally on every start. `_storeCount` is the record count already
persisted under `WORKING_DIR` by previous runs; the source never consults
it before ingesting, which is why the parameter is unused here. -/
def startup_insert_calls (_storeCount : Nat) (folder : Option (List Entry)) : Nat :=
  (load_docs_from_folder folder).loaded_count

end RagProject.Demo

namespace RagProject.Simple

/-! ### Embedding of `lightrag.py` -/

/-- The exception escaping `load_docs_from_folder` in `lightrag.py`. -/
inductive LoadError where
  | fileNotFound
  | decodeError
  | readError
  deriving DecidableEq

/-- The loop of `load_docs_from_folder` in `lightrag.py`: no extension
filter, no empty-content check, and no per-file exception handling. First
component: the contents passed to `rag.insert` before any failure; second:
the exception escaping the function, if any. -/
def go (acc : List String) : List Entry → List String × Option LoadError
  | [] => (acc, none)
  | e :: es =>
    if e.isFile then
      match e.read with
      | .ok content => go (acc ++ [content]) es
      | .decodeError => (acc, some LoadError.decodeError)
      | .readError => (acc, some LoadError.readError)
    else go acc es

/-- `load_docs_from_folder` from `lightrag.py`. There is no existence
check: `os.listdir` on a missing directory raises `FileNotFoundError`
before any file is touched. -/
def load_docs_from_folder (folder : Option (List Entry)) : List String × Option LoadError :=
  match folder with
  | none => ([], some LoadError.fileNotFound)
  | some entries => go [] entries

end RagProject.Simple

namespace RagProject

/-! ### Case-insensitivity facts about the extension check -/

theorem ofNat_upper_add32_ne_dot (n : Nat) (h1 : 65 ≤ n) (h2 : n ≤ 90) :
    Char.ofNat (n + 32) ≠ '.' := by
  interval_cases n <;> decide

theorem toLower_eq_dot_iff (c : Char) : Char.toLower c = '.' ↔ c = '.' := by
  constructor
  · intro h
    have h2 : (if c.toNat ≥ 65 ∧ c.toNat ≤ 90 then Char.ofNat (c.toNat + 32) else c) = '.' := h
    split at h2
    · next hc =>
      exact absurd h2 (ofNat_upper_add32_ne_dot c.toNat hc.1 hc.2)
    · exact h2
  · intro h
    subst h
    decide

theorem lastDotPos_map_toLower (cs : List Char) :
    lastDotPos (cs.map Char.toLower) = lastDotPos cs := by
  induction cs with
  | nil => rfl
  | cons c cs ih =>
    show (match lastDotPos (cs.map Char.toLower) with
          | some i => some (i + 1)
          | none => if Char.toLower c = '.' then some 0 else none) =
        (match lastDotPos cs with
          | some i => some (i + 1)
          | none => if c = '.' then some 0 else none)
    rw [ih]
    cases lastDotPos cs with
    | some i => rfl
    | none =>
      show (if Char.toLower c = '.' then some 0 else none) = (if c = '.' then some 0 else none)
      by_cases hc : c = '.'
      · rw [if_pos ((toLower_eq_dot_iff c).mpr hc), if_pos hc]
      · rw [if_neg (fun he => hc ((toLower_eq_dot_iff c).mp he)), if_neg hc]

theorem any_ne_dot_map_toLower (cs : List Char) :
    (cs.map Char.toLower).any (fun c => c != '.') = cs.any (fun c => c != '.') := by
  induction cs with
  | nil => rfl
  | cons c cs ih =>
    simp only [List.map_cons, List.any_cons, ih]
    by_cases hc : c = '.'
    · subst hc
      have hl : Char.toLower '.' = '.' := by decide
      rw [hl]
    · have h2 : Char.toLower c ≠ '.' := fun he => hc ((toLower_eq_dot_iff c).mp he)
      have hb1 : (Char.toLower c != '.') = true := bne_iff_ne.mpr h2
      have hb2 : (c != '.') = true := bne_iff_ne.mpr hc
      rw [hb1, hb2]

/-- Lowercasing a filename and taking its extension commutes with taking the
extension and lowercasing it. -/
theorem splitextExt_lowerStr (p : String) :
    splitextExt (lowerStr p) = lowerStr (splitextExt p) := by
  show splitextExt (String.mk (p.data.map Char.toLower)) = lowerStr (splitextExt p)
  unfold splitextExt
  simp only [lastDotPos_map_toLower]
  cases h : lastDotPos p.data with
  | none => rfl
  | some i =>
    show (if ((p.data.map Char.toLower).take i).any (fun c => c != '.') = true
          then String.mk ((p.data.map Char.toLower).drop i) else "")
        = lowerStr (if ((p.data.take i).any (fun c => c != '.')) = true
          then String.mk (p.data.drop i) else "")
    have hany : ((p.data.map Char.toLower).take i).any (fun c => c != '.')
        = (p.data.take i).any (fun c => c != '.') := by
      rw [← List.map_take, any_ne_dot_map_toLower]
    rw [hany]
    by_cases hc : (p.data.take i).any (fun c => c != '.') = true
    · rw [if_pos hc, if_pos hc]
      show String.mk ((p.data.map Char.toLower).drop i) = String.mk ((p.data.drop i).map Char.toLower)
      rw [List.map_drop]
    · rw [if_neg hc, if_neg hc]
      rfl

/-! ### Claim theorems -/

/-- Claim C9: for every filename, the support check of the corpus loader accepts
the file iff its extension, compared case-insensitively, is in the fixed
allow-list `.txt`, `.md`, `.doc`, `.docx`, `.pdf`; in particular filenames
differing only in extension letter case, such as `"A.TXT"` and `"a.txt"`,
yield the same decision. -/
theorem c9_extension_allowlist_case_insensitive :
    (∀ f : String, Demo.is_supported_file f
        = Demo.SUPPORTED_FILE_EXTENSIONS.contains (lowerStr (splitextExt f)))
    ∧ Demo.is_supported_file "A.TXT" = Demo.is_supported_file "a.txt"
    ∧ Demo.is_supported_file "a.txt" = true
    ∧ Demo.is_supported_file "notes.exe" = false := by
  refine ⟨fun f => ?_, by decide, by decide, by decide⟩
  unfold Demo.is_supported_file
  rw [splitextExt_lowerStr]

/-- Claim C5: on start, `initialize_or_load_vector_store` queries the
collection count exactly once and branches on it: when the count is zero
it loads the corpus directory and builds the new index from exactly those
documents; when the count is nonzero it constructs the index from the
existing vector store without loading any documents. -/
theorem c5_build_vs_load (storeCount : Nat) (docsDir : List String) :
    ((CommonRag.initialize_or_load_vector_store storeCount docsDir CommonRag.Trace.start).2.countCalls = 1)
    ∧ (storeCount = 0 →
        (CommonRag.initialize_or_load_vector_store storeCount docsDir CommonRag.Trace.start).1
            = CommonRag.Index.fromDocuments docsDir
        ∧ (CommonRag.initialize_or_load_vector_store storeCount docsDir CommonRag.Trace.start).2.loadDataCalls = 1
        ∧ (CommonRag.initialize_or_load_vector_store storeCount docsDir CommonRag.Trace.start).2.fromDocumentsCalls = 1)
    ∧ (storeCount ≠ 0 →
        (CommonRag.initialize_or_load_vector_store storeCount docsDir CommonRag.Trace.start).1
            = CommonRag.Index.fromVectorStore
        ∧ (CommonRag.initialize_or_load_vector_store storeCount docsDir CommonRag.Trace.start).2.loadDataCalls = 0
        ∧ (CommonRag.initialize_or_load_vector_store storeCount docsDir CommonRag.Trace.start).2.fromDocumentsCalls = 0) := by
  by_cases h : storeCount = 0
  · subst h
    exact ⟨rfl, fun _ => ⟨rfl, rfl, rfl⟩, fun hne => absurd rfl hne⟩
  · have hred : CommonRag.initialize_or_load_vector_store storeCount docsDir CommonRag.Trace.start
        = CommonRag.fromVectorStore { CommonRag.Trace.start with countCalls := CommonRag.Trace.start.countCalls + 1 } := by
      simp only [CommonRag.initialize_or_load_vector_store, CommonRag.collectionCount]
      rw [if_neg h]
    rw [hred]
    exact ⟨rfl, fun h0 => absurd h0 h, fun _ => ⟨rfl, rfl, rfl⟩⟩

theorem c5_build_vs_load_witness :
    ((CommonRag.initialize_or_load_vector_store 0 ["doc one"] CommonRag.Trace.start).1
        = CommonRag.Index.fromDocuments ["doc one"])
    ∧ ((CommonRag.initialize_or_load_vector_store 3 ["doc one"] CommonRag.Trace.start).1
        = CommonRag.Index.fromVectorStore)
    ∧ ((CommonRag.initialize_or_load_vector_store 3 ["doc one"] CommonRag.Trace.start).2.countCalls = 1) :=
  ⟨((c5_build_vs_load 0 ["doc one"]).2.1 rfl).1,
   ((c5_build_vs_load 3 ["doc one"]).2.2 (by decide)).1,
   (c5_build_vs_load 3 ["doc one"]).1⟩

/-- Claim C1 counterexample: starting `lightrag-demo.py` against a store
that already holds 7 records, with one readable document in the corpus
directory, still performs one `rag.insert` call — startup ingestion runs
unconditionally, never consulting the population of the store. -/
theorem c1_counterexample :
    Demo.startup_insert_calls 7
        (some [{ name := "a.txt", isFile := true, read := ReadResult.ok "doc body" }]) = 1 := by
  decide

/-- Claim C1 (amended): in the Chroma-backed pipeline (`common_rag.py`),
a start against a populated store (record count nonzero) performs no
ingestion: the corpus directory is never read, `from_documents` is never
called, and the index is bound directly to the existing store. The
LightRAG scripts, by contrast, run `rag.insert` on every start. -/
theorem c1_no_reingestion_when_populated (storeCount : Nat) (docsDir : List String)
    (t : CommonRag.Trace) (hpop : storeCount ≠ 0) :
    (CommonRag.initialize_or_load_vector_store storeCount docsDir t).1
        = CommonRag.Index.fromVectorStore
    ∧ (CommonRag.initialize_or_load_vector_store storeCount docsDir t).2.fromDocumentsCalls
        = t.fromDocumentsCalls
    ∧ (CommonRag.initialize_or_load_vector_store storeCount docsDir t).2.loadDataCalls
        = t.loadDataCalls := by
  have hred : CommonRag.initialize_or_load_vector_store storeCount docsDir t
      = CommonRag.fromVectorStore { t with countCalls := t.countCalls + 1 } := by
    simp only [CommonRag.initialize_or_load_vector_store, CommonRag.collectionCount]
    rw [if_neg hpop]
  rw [hred]
  exact ⟨rfl, rfl, rfl⟩

theorem c1_no_reingestion_when_populated_witness :
    (CommonRag.initialize_or_load_vector_store 7 ["doc body"] CommonRag.Trace.start).1
      = CommonRag.Index.fromVectorStore :=
  (c1_no_reingestion_when_populated 7 ["doc body"] CommonRag.Trace.start (by decide)).1

/-- Claim C10: for every index, result count and retrieval mode,
`create_query_engine` builds the engine with streaming enabled and
response assembly mode `"compact"`; the interface passes through only the
index, `similarity_top_k` and `retriever_mode`, offering the caller no way
to change the other two. -/
theorem c10_engine_always_compact_and_streamed (index : CommonRag.Index) (k : Nat) (mode : String) :
    (CommonRag.create_query_engine index k mode).2.streaming = true
    ∧ (CommonRag.create_query_engine index k mode).2.response_mode = "compact"
    ∧ (CommonRag.create_query_engine index k mode).2.similarity_top_k = k
    ∧ (CommonRag.create_query_engine index k mode).2.retriever_mode = mode :=
  ⟨rfl, rfl, rfl, rfl⟩

/-- Claim C4, the code evaluated at the input named by the claim: on the chunk
sequence `["The ", "cat ", "sat."]`, `stream_response` returns the full
concatenation `"The cat sat."` but writes only the `"Bot: "` header and a
final newline to stdout — no chunk is ever forwarded, because the
per-token print inside the loop is commented out in the source, against
the docstring of the function itself, "Stream the response tokens to the
console". -/
theorem c4_stream_response_eval :
    CommonRag.stream_response ["The ", "cat ", "sat."] = (["Bot: ", "\n"], "The cat sat.") := by
  decide

/-- Claim C8: in the session loop of `common_rag.py`, a query whose
processing raises — either because `query_engine.query` itself raised, or
because the streaming generator raised mid-consumption — produces the
textual error line `Error processing your request: ...` in place of an
answer, and the loop stays alive: all inputs before the failing one are
answered normally and all inputs after it are still processed exactly as
they would have been. -/
theorem c8_query_failure_keeps_session (query_engine : String → CommonRag.EngineResp)
    (pre post : List String) (q e : String)
    (hq : query_engine q = CommonRag.EngineResp.queryRaises e
        ∨ ∃ cs, query_engine q = CommonRag.EngineResp.streamResp cs (some e))
    (hqe : CommonRag.isExitCmd q = false)
    (hpre : ∀ p ∈ pre, CommonRag.isExitCmd p = false) :
    CommonRag.session_loop query_engine (pre ++ q :: post)
      = (pre.map fun p => "Bot: " ++ CommonRag.query_rag p query_engine)
        ++ ("Bot: " ++ CommonRag.errorMsg e) :: CommonRag.session_loop query_engine post := by
  have hcons : ∀ (x : String) (xs : List String),
      CommonRag.session_loop query_engine (x :: xs)
        = if CommonRag.isExitCmd x = true then []
          else ("Bot: " ++ CommonRag.query_rag x query_engine)
            :: CommonRag.session_loop query_engine xs :=
    fun x xs => rfl
  induction pre with
  | nil =>
    rw [List.nil_append, hcons q post, hqe]
    have hmsg : CommonRag.query_rag q query_engine = CommonRag.errorMsg e := by
      rcases hq with h | ⟨cs, h⟩ <;> · unfold CommonRag.query_rag; rw [h]
    simp [hmsg]
  | cons p ps ih =>
    have hp : CommonRag.isExitCmd p = false := hpre p (by simp)
    rw [List.cons_append, hcons p (ps ++ q :: post), hp]
    simp only [Bool.false_eq_true, if_false, List.map_cons, List.cons_append]
    rw [ih (fun x hx => hpre x (by simp [hx]))]

theorem c8_query_failure_keeps_session_witness :
    CommonRag.session_loop CommonRag.engBoom (["greet"] ++ "boom" :: ["greet two"])
      = ["Bot: hi", "Bot: Error processing your request: fail", "Bot: hi"] := by
  rw [c8_query_failure_keeps_session CommonRag.engBoom ["greet"] ["greet two"] "boom" "fail"
      (Or.inl (by decide)) (by decide) (by decide)]
  decide

/-- Claim C3 counterexample: for a directory holding exactly one valid
text file, one whitespace-only file, one file with invalid encoding and
one file with an unsupported extension, the demo loader exposes no
distinct skipped-empty or skipped-unsupported counters: its entire
observable outcome — both of its counters and the inserted contents — is
identical to that for the directory without the empty and the unsupported
file, and reads `loaded_count = 1, failed_count = 1`. -/
theorem c3_counterexample :
    Demo.load_docs_from_folder (some
        [{ name := "valid.txt", isFile := true, read := ReadResult.ok "The valid content." },
         { name := "empty.txt", isFile := true, read := ReadResult.ok " \n" },
         { name := "bad.txt", isFile := true, read := ReadResult.decodeError },
         { name := "image.png", isFile := true, read := ReadResult.ok "rawbytes" }])
      = Demo.load_docs_from_folder (some
        [{ name := "valid.txt", isFile := true, read := ReadResult.ok "The valid content." },
         { name := "bad.txt", isFile := true, read := ReadResult.decodeError }])
    ∧ Demo.load_docs_from_folder (some
        [{ name := "valid.txt", isFile := true, read := ReadResult.ok "The valid content." },
         { name := "empty.txt", isFile := true, read := ReadResult.ok " \n" },
         { name := "bad.txt", isFile := true, read := ReadResult.decodeError },
         { name := "image.png", isFile := true, read := ReadResult.ok "rawbytes" }])
      = { loaded_count := 1, failed_count := 1, inserted := ["The valid content."] } := by
  exact ⟨by decide, by decide⟩

/-- Claim C3 (amended): for such a directory the demo loader reports
`loaded_count = 1` and `failed_count = 1` — its only counters, the decode
failure counting toward `failed_count` — while the whitespace-only file
and the unsupported file are skipped without being counted anywhere; the
content of the single inserted document equals the content of the valid file
exactly. -/
theorem c3_loader_counts (vname ename bname uname vcontent wcontent ucontent : String)
    (hv : Demo.is_supported_file vname = true)
    (he : Demo.is_supported_file ename = true)
    (hb : Demo.is_supported_file bname = true)
    (hu : Demo.is_supported_file uname = false)
    (hvc : stripEmpty vcontent = false)
    (hwc : stripEmpty wcontent = true) :
    Demo.load_docs_from_folder (some
        [{ name := vname, isFile := true, read := ReadResult.ok vcontent },
         { name := ename, isFile := true, read := ReadResult.ok wcontent },
         { name := bname, isFile := true, read := ReadResult.decodeError },
         { name := uname, isFile := true, read := ReadResult.ok ucontent }])
      = { loaded_count := 1, failed_count := 1, inserted := [vcontent] } := by
  simp [Demo.load_docs_from_folder, Demo.step, Demo.LoadResult.start, hv, he, hb, hu, hvc, hwc]

theorem c3_loader_counts_witness :
    Demo.load_docs_from_folder (some
        [{ name := "v.txt", isFile := true, read := ReadResult.ok "Valid body." },
         { name := "e.md", isFile := true, read := ReadResult.ok " \t" },
         { name := "b.pdf", isFile := true, read := ReadResult.decodeError },
         { name := "u.png", isFile := true, read := ReadResult.ok "x" }])
      = { loaded_count := 1, failed_count := 1, inserted := ["Valid body."] } :=
  c3_loader_counts "v.txt" "e.md" "b.pdf" "u.png" "Valid body." " \t" "x"
    (by decide) (by decide) (by decide) (by decide) (by decide) (by decide)

theorem step_bumpFailed (r : Demo.LoadResult) (e : Entry) :
    Demo.step (Demo.bumpFailed r) e = Demo.bumpFailed (Demo.step r e) := by
  unfold Demo.step
  by_cases h1 : (!e.isFile || !Demo.is_supported_file e.name) = true
  · rw [if_pos h1, if_pos h1]
  · rw [if_neg h1, if_neg h1]
    cases h2 : e.read with
    | ok content =>
      dsimp only
      by_cases h3 : stripEmpty content = true
      · rw [if_pos h3, if_pos h3]
      · rw [if_neg h3, if_neg h3]
        rfl
    | decodeError => rfl
    | readError => rfl

theorem foldl_step_bumpFailed (l : List Entry) (r : Demo.LoadResult) :
    l.foldl Demo.step (Demo.bumpFailed r) = Demo.bumpFailed (l.foldl Demo.step r) := by
  induction l generalizing r with
  | nil => rfl
  | cons e es ih =>
    rw [List.foldl_cons, List.foldl_cons, step_bumpFailed, ih]

/-- Claim C7 (amended): in the demo loader (`lightrag-demo.py`), a decode
failure on one file increments `failed_count` and changes nothing else:
the pass over all the remaining files — before and after the failing one —
yields exactly the same loaded count and the same inserted contents, in
the same order, as the pass without the failing file. (The loader of
`lightrag.py`, by contrast, lets the exception abort the pass.) -/
theorem c7_decode_failure_isolated (pre post : List Entry) (bname : String)
    (hb : Demo.is_supported_file bname = true) :
    Demo.load_docs_from_folder
        (some (pre ++ { name := bname, isFile := true, read := ReadResult.decodeError } :: post))
      = Demo.bumpFailed (Demo.load_docs_from_folder (some (pre ++ post))) := by
  have hstep : Demo.step (pre.foldl Demo.step Demo.LoadResult.start)
      { name := bname, isFile := true, read := ReadResult.decodeError }
      = Demo.bumpFailed (pre.foldl Demo.step Demo.LoadResult.start) := by
    simp [Demo.step, Demo.bumpFailed, hb]
  show (pre ++ ({ name := bname, isFile := true, read := ReadResult.decodeError } : Entry) :: post).foldl
        Demo.step Demo.LoadResult.start
      = Demo.bumpFailed ((pre ++ post).foldl Demo.step Demo.LoadResult.start)
  rw [List.foldl_append, List.foldl_cons, hstep, foldl_step_bumpFailed, ← List.foldl_append]

theorem c7_decode_failure_isolated_witness :
    Demo.load_docs_from_folder (some
        ([{ name := "a.txt", isFile := true, read := ReadResult.ok "first" }]
          ++ { name := "bad.txt", isFile := true, read := ReadResult.decodeError }
          :: [{ name := "c.md", isFile := true, read := ReadResult.ok "third" }]))
      = Demo.bumpFailed (Demo.load_docs_from_folder (some
          ([{ name := "a.txt", isFile := true, read := ReadResult.ok "first" }]
            ++ [{ name := "c.md", isFile := true, read := ReadResult.ok "third" }]))) :=
  c7_decode_failure_isolated
    [{ name := "a.txt", isFile := true, read := ReadResult.ok "first" }]
    [{ name := "c.md", isFile := true, read := ReadResult.ok "third" }]
    "bad.txt" (by decide)

/-- Claim C7 counterexample: in the loader of `lightrag.py`, a decode failure
on the second file aborts the pass: the exception escapes the function,
the third file is never read or inserted, and there is no failure counter
to increment. -/
theorem c7_counterexample :
    Simple.load_docs_from_folder (some
        [{ name := "a.txt", isFile := true, read := ReadResult.ok "first" },
         { name := "bad.txt", isFile := true, read := ReadResult.decodeError },
         { name := "c.txt", isFile := true, read := ReadResult.ok "third" }])
      = (["first"], some Simple.LoadError.decodeError) := by
  decide

/-- Claim C2 counterexample: for a streaming query that yields `"Partial"`
and then fails mid-sequence, while the non-streaming path would succeed
with a complete answer, `query_rag_async` performs zero fallback attempts
and leaves only the partial chunk on stdout: the exception is swallowed
inside `print_stream`, so the fallback branch is never reached. -/
theorem c2_counterexample :
    (Demo.query_rag_async Demo.ragMidFail).fallbackCalls = 0
    ∧ (Demo.query_rag_async Demo.ragMidFail).printed = ["Partial"] := by
  exact ⟨rfl, rfl⟩

/-- Claim C2 (amended): the one-shot non-streaming fallback of
`query_rag_async` fires only when issuing the streaming query itself
raises: then exactly one fallback attempt is made and its complete text is
printed, and if the fallback also fails a single user-visible error
message is printed with no further retry. A failure during stream
consumption is caught inside `print_stream`, only logged, and triggers no
fallback: the chunks already emitted stand as the only output. -/
theorem c2_fallback_only_on_query_raise (rag : Demo.Rag) :
    (∀ s, rag.onStream = Demo.QueryResp.agen s →
        (Demo.query_rag_async rag).fallbackCalls = 0
        ∧ (Demo.query_rag_async rag).printed = Demo.print_stream s)
    ∧ (∀ e, rag.onStream = Demo.QueryResp.raisesQ e →
        (Demo.query_rag_async rag).fallbackCalls = 1
        ∧ (∀ t, rag.onPlain = Demo.PlainResp.ok t →
            (Demo.query_rag_async rag).printed = [t ++ "\n"])
        ∧ (∀ e2, rag.onPlain = Demo.PlainResp.raisesP e2 →
            (Demo.query_rag_async rag).printed = ["抱歉，查询失败。请检查您的查询或系统状态。\n"])) := by
  constructor
  · intro s hs
    unfold Demo.query_rag_async
    rw [hs]
    exact ⟨rfl, rfl⟩
  · intro e he
    unfold Demo.query_rag_async
    rw [he]
    cases hp : rag.onPlain with
    | ok t =>
      refine ⟨rfl, fun t2 ht2 => ?_, fun e2 he2 => ?_⟩
      · injection ht2 with h
        subst h
        rfl
      · exact Demo.PlainResp.noConfusion he2
    | raisesP e2 =>
      refine ⟨rfl, fun t2 ht2 => ?_, fun e3 he3 => ?_⟩
      · exact Demo.PlainResp.noConfusion ht2
      · rfl

theorem c2_fallback_only_on_query_raise_witness :
    (Demo.query_rag_async Demo.ragMidFail).fallbackCalls = 0
    ∧ (Demo.query_rag_async Demo.ragQueryRaises).fallbackCalls = 1
    ∧ (Demo.query_rag_async Demo.ragQueryRaises).printed = ["Fallback answer." ++ "\n"] :=
  ⟨((c2_fallback_only_on_query_raise Demo.ragMidFail).1
      { chunks := ["Partial"], err := some "transport failure" } rfl).1,
   ((c2_fallback_only_on_query_raise Demo.ragQueryRaises).2 "boom" rfl).1,
   ((c2_fallback_only_on_query_raise Demo.ragQueryRaises).2 "boom" rfl).2.1 "Fallback answer." rfl⟩

/-- Claim C6 counterexample: in `lightrag.py`, running ingestion against a
non-existent document directory raises — `os.listdir` throws
`FileNotFoundError` — instead of producing a zero count; in that script
the exception aborts startup before any query can be served. -/
theorem c6_counterexample :
    Simple.load_docs_from_folder none = ([], some Simple.LoadError.fileNotFound) := by
  exact rfl

/-- Claim C6 (amended): in `lightrag-demo.py`, ingestion against a
non-existent or empty directory yields `loaded_count = 0`, inserts
nothing and does not raise; `main` still reaches the query loop, where a
plain query completes and produces an answered event. `lightrag.py`
tolerates an empty directory too, but raises on a missing one. -/
theorem c6_empty_corpus_tolerated :
    Demo.load_docs_from_folder none = { loaded_count := 0, failed_count := 0, inserted := [] }
    ∧ Demo.load_docs_from_folder (some []) = { loaded_count := 0, failed_count := 0, inserted := [] }
    ∧ (∀ rag : Demo.Rag, ∀ queries : List String,
        Demo.main true rag none queries = some (Demo.session rag 0 queries))
    ∧ (∀ rag : Demo.Rag,
        Demo.session rag 0 ["What is this?"]
          = [Demo.SessionEvent.answered (Demo.query_rag_async rag).printed])
    ∧ Simple.load_docs_from_folder (some []) = ([], none) := by
  exact ⟨rfl, rfl, fun rag queries => rfl, fun rag => rfl, rfl⟩

end RagProject
